import Mathlib

/-!
# Verification of the ibtop fabric-telemetry engine

A shallow embedding of the state coordinator, counter arithmetic and view
model of the `ibtop` terminal fabric monitor (Rust), together with proofs
about the embedded definitions.

Modelling conventions:
* `HashMap<K, V>` is modelled as an association list `List (K × V)` with
  lookup returning the first (and, for maps produced by the program, only)
  binding of a key; iteration order of a concrete map value is the list order.
* `u64` counter values are modelled as `Nat` (the program never overflows the
  counters itself: it only subtracts with `saturating_sub` under a `≥` guard
  and widens to `u128` before summing).
* `f64` arithmetic (bandwidth metrics) is modelled as exact rational
  arithmetic on `ℚ`; `x / 0 = 0` on `ℚ` stands in for the IEEE infinities.
* `u16` LIDs are `Nat`, `i32` port numbers are `Int`.
* Rust's `slice::sort_by` is a stable sort with respect to the supplied
  comparator; it is modelled by `List.insertionSort` (also stable) on the
  relation `c a b ≠ .gt`.
-/

namespace Ibtop

/-- `CounterMode` from `src/app.rs`: the three counter presentation modes. -/
inductive CounterMode where
  | Whole
  | Delta
  | Baseline
deriving DecidableEq, Repr

/-- `Popup` from `src/app.rs`: the currently active popup dialog. -/
inductive Popup where
  | None
  | Search
  | Details
deriving DecidableEq, Repr

/-- `Port` from `src/services/lib.rs`. -/
structure Port where
  number : Int
  remote_node_description : String
deriving DecidableEq, Repr

/-- `Node` from `src/services/lib.rs`. -/
structure Node where
  guid : Nat
  node_description : String
  ports : List Port
  lid : Nat
deriving DecidableEq, Repr

/-- `LidPort` from `src/services/lib.rs`: a counter-query target. -/
structure LidPort where
  lid : Nat
  number : Int
deriving DecidableEq, Repr

/-- `AGG_COUNTERS_PORT` from `src/app.rs`. -/
def AGG_COUNTERS_PORT : Int := 255

/-- First-binding association-list lookup; the model of `HashMap::get`. -/
def alookup {κ ν : Type} [DecidableEq κ] (k : κ) : List (κ × ν) → Option ν
  | [] => none
  | kv :: rest => if kv.1 = k then some kv.2 else alookup k rest

/-- A `HashMap<String, u64>` counter record. -/
abbrev CounterRecord := List (String × Nat)

/-- A `HashMap<(u16, i32), HashMap<String, u64>>` counter store. -/
abbrev CounterStore := List ((Nat × Int) × CounterRecord)

/-- `record.get(k)`. -/
def crGet (r : CounterRecord) (k : String) : Option Nat := alookup k r

/-- `record.get(k).copied().unwrap_or(d)`. -/
def crGetD (r : CounterRecord) (k : String) (d : Nat) : Nat := (crGet r k).getD d

/-- The key set (as a list, in iteration order) of a counter record. -/
def crKeys (r : CounterRecord) : List String := r.map Prod.fst

/-- `store.get(&(lid, port))`. -/
def storeGet (s : CounterStore) (k : Nat × Int) : Option CounterRecord := alookup k s

/-- The key set (as a list, in iteration order) of a counter store. -/
def storeKeys (s : CounterStore) : List (Nat × Int) := s.map Prod.fst

/-- `ERROR_COUNTERS` from `src/services/rsmad.rs` (eleven names). -/
def ERROR_COUNTERS : List String :=
  ["symbol_errors", "link_recovers", "link_downed", "rcv_errors",
   "phys_rcv_errors", "switch_rel_errors", "rcv_local_phy_errors",
   "rcv_malformed_pkt_errors", "excess_overrun_errors", "vl15dropped",
   "qp1_drops"]

/-- `get_bw` from `src/ui/helpers.rs`, over exact rationals. -/
def get_bw (perfcounters : CounterRecord) (counter : String)
    (counter_mode : CounterMode) : ℚ :=
  let time_delta : ℚ :=
    match counter_mode with
    | .Delta => ((crGetD perfcounters "end_timestamp" 1 : Nat) : ℚ) / 1000000000
    | _ => 1
  match crGet perfcounters counter with
  | some val => ((val : ℚ) * 4 / 1000000000 * 8) / time_delta
  | none => 0

/-- `get_bw_loss` from `src/ui/helpers.rs`, over exact rationals. -/
def get_bw_loss (perfcounters : CounterRecord) (counter : String)
    (counter_mode : CounterMode) : ℚ :=
  let time_delta : ℚ :=
    match counter_mode with
    | .Delta => ((crGetD perfcounters "end_timestamp" 1 : Nat) : ℚ) / 1000000000
    | _ => 1
  match crGet perfcounters counter with
  | some val => (val : ℚ) * 64 / 1000000000 / time_delta
  | none => 0

/-- `count_errors` from `src/ui/helpers.rs`: sum the present error counters. -/
def count_errors (perfcounters : CounterRecord) : Nat :=
  (ERROR_COUNTERS.filterMap (fun err_ctr => crGet perfcounters err_ctr)).sum

/-- `get_error_strings` from `src/ui/helpers.rs`. -/
def get_error_strings (perfcounters : CounterRecord) : String :=
  let errors :=
    ((ERROR_COUNTERS.filterMap
        (fun err_ctr => (crGet perfcounters err_ctr).map (fun v => (err_ctr, v)))).filter
      (fun e => 0 < e.2)).map (fun e => e.1)
  String.intercalate "," errors

/-- `calc_counters_delta` from `src/app.rs`: per-key saturating delta over the
keys of `new_map`; a key whose new value dropped below the old value is
reported as the raw new value (suspected counter reset). -/
def calc_counters_delta (old_map new_map : CounterRecord) : CounterRecord :=
  new_map.map (fun kv =>
    (kv.1, if crGetD old_map kv.1 0 ≤ kv.2 then kv.2 - crGetD old_map kv.1 0
           else kv.2))

/-- Rust's `Ord::cmp` / `PartialOrd::partial_cmp` (on non-NaN values), as a
three-way comparator on any linear order, defined through `<` exactly as the
Rust trait contracts specify. -/
def cmpv {β : Type} [LinearOrder β] (a b : β) : Ordering :=
  if a < b then .lt else if b < a then .gt else .eq

/-- The model of Rust's stable `slice::sort_by c`: the stable sort placing
`a` before `b` whenever `c a b ≠ .gt`.  (`sort_by` is documented as stable,
so its output is exactly the stable sort determined by the comparator.) -/
def sortByOrd {α : Type} (c : α → α → Ordering) (l : List α) : List α :=
  List.insertionSort (fun a b => c a b ≠ .gt) l

/-- A row of the main node table: the tuple
`(guid, lid, description, port count, recv_bw, xmit_bw, bw_loss, error_count,
error_strings)` built in `render_nodes_table` / `set_selected_node_guid`. -/
structure Row9 where
  guid : Nat
  lid : Nat
  desc : String
  portCount : Nat
  recvBw : ℚ
  xmtBw : ℚ
  bwLoss : ℚ
  errCnt : Nat
  errStr : String
deriving DecidableEq, Repr

/-- The comparator of `sort_by` in `render_nodes_table` /
`set_selected_node_guid` (`src/app.rs`, `src/ui/view.rs`), before the
descending reversal: dispatch on `sort_column`. -/
def cmp_rows (sort_column : Int) (a b : Row9) : Ordering :=
  if sort_column = 1 then cmpv a.lid b.lid
  else if sort_column = 2 then cmpv a.desc b.desc
  else if sort_column = 3 then cmpv a.portCount b.portCount
  else if sort_column = 4 then cmpv a.recvBw b.recvBw
  else if sort_column = 5 then cmpv a.xmtBw b.xmtBw
  else if sort_column = 6 then cmpv a.bwLoss b.bwLoss
  else if sort_column = 7 then cmpv a.errCnt b.errCnt
  else if sort_column = 8 then cmpv a.errStr b.errStr
  else .eq

/-- The full comparator including the `sort_ascending` reversal
(`ordering.reverse()` in Rust is `Ordering.swap`). -/
def rowCmp (sort_column : Int) (sort_ascending : Bool) (a b : Row9) : Ordering :=
  let ordering := cmp_rows sort_column a b
  if sort_ascending then ordering else ordering.swap

/-- `node_info.sort_by(...)` of the main table, for a fixed column/direction. -/
def sort_rows (sort_column : Int) (sort_ascending : Bool) (l : List Row9) :
    List Row9 :=
  sortByOrd (rowCmp sort_column sort_ascending) l

/-- The coordinator's state (`App` in `src/app.rs`), restricted to the fields
the event loop reads or writes.  `last_counter_update : Option DateTime` is
modelled as `Option Unit` (set or not); `visible_rows` is the `Cell` value the
renderer last stored. -/
structure CoordState where
  running : Bool
  nodes : List Node
  selectedNode : Option Row9
  displayC : CounterStore
  currentC : CounterStore
  previousC : CounterStore
  baselineC : CounterStore
  pending : Bool
  lastCounterUpdate : Option Unit
  counterMode : CounterMode
  status : String
  tick : Nat
  autoUpdate : Bool
  autoUpdateInterval : Nat
  autoUpdateCounter : Nat
  sortColumn : Int
  sortAscending : Bool
  filter : String
  tableOffset : Nat
  popupTableOffset : Nat
  popupSelected : Nat
  visibleRows : Nat
  selected : Nat
  activePopup : Popup
deriving Repr

/-- The projection of one node to a `Row9` in `render_nodes_table` /
`set_selected_node_guid`: metrics come from `display.get((lid, 255))`, with
zero / empty defaults when the node has no display entry. -/
def row_of_node (s : CoordState) (n : Node) : Row9 :=
  let counters := storeGet s.displayC (n.lid, AGG_COUNTERS_PORT)
  { guid := n.guid
    lid := n.lid
    desc := n.node_description
    portCount := n.ports.length
    recvBw := match counters with
      | some ctrs => get_bw ctrs "rcv_bytes" s.counterMode
      | none => 0
    xmtBw := match counters with
      | some ctrs => get_bw ctrs "xmt_bytes" s.counterMode
      | none => 0
    bwLoss := match counters with
      | some ctrs => get_bw_loss ctrs "xmit_waits" s.counterMode
      | none => 0
    errCnt := match counters with
      | some ctrs => count_errors ctrs
      | none => 0
    errStr := match counters with
      | some ctrs => get_error_strings ctrs
      | none => "" }

/-- The filtered, projected, sorted row list of the main table.  The compiled
case-insensitive regex of the search form is abstracted by the external
matcher `m : pattern → text → Bool` (the `regex` crate is an external
collaborator; an invalid pattern degrades to the always-matching one). -/
def node_info_rows (m : String → String → Bool) (s : CoordState) : List Row9 :=
  sort_rows s.sortColumn s.sortAscending
    ((s.nodes.filter (fun n => m s.filter n.node_description)).map (row_of_node s))

/-- `App::filtered_len` from `src/app.rs`. -/
def filtered_len (m : String → String → Bool) (s : CoordState) : Nat :=
  (s.nodes.filter (fun n => m s.filter n.node_description)).length

/-- `App::set_selected_node_guid` from `src/app.rs`: recompute the filtered
sorted rows, clamp `selected`, and cache the selected row. -/
def set_selected_node_guid (m : String → String → Bool) (s : CoordState) :
    CoordState :=
  let node_info := node_info_rows m s
  let sel := if node_info.length ≤ s.selected then node_info.length - 1
             else s.selected
  { s with selected := sel, selectedNode := node_info[sel]? }

/-- `App::ensure_selected_visible` from `src/app.rs`. -/
def ensure_selected_visible (m : String → String → Bool) (s : CoordState) :
    CoordState :=
  let vis := max s.visibleRows 1
  let len := filtered_len m s
  let maxOffset := len - vis
  if s.selected < s.tableOffset then
    { s with tableOffset := min s.selected maxOffset }
  else if s.tableOffset + vis ≤ s.selected then
    { s with tableOffset := min (s.selected + 1 - vis) maxOffset }
  else
    { s with tableOffset := min s.tableOffset maxOffset }

/-- An outbound request placed on a service mailbox (or the quit signal). -/
inductive Req where
  | discover
  | counters (targets : List LidPort)
  | quit
deriving DecidableEq, Repr

/-- `App::discover_fabric` from `src/app.rs`. -/
def discover_fabric (s : CoordState) : CoordState × List Req :=
  ({ s with status := "Discovering..." }, [Req.discover])

/-- `App::update_counters` from `src/app.rs`: guarded by
`pending_counter_update`, targets either the selected node's ports (Details
popup) or every node's aggregate pseudo-port 255. -/
def update_counters (s : CoordState) : CoordState × List Req :=
  if s.pending then
    ({ s with status := "Counters update is already pending..." }, [])
  else if s.nodes.isEmpty then
    ({ s with status := "No nodes discovered yet, cannot update counters." }, [])
  else
    let s1 := { s with status := "Updating counters...", pending := true }
    let aggTargets : List LidPort :=
      s.nodes.map (fun n => { lid := n.lid, number := AGG_COUNTERS_PORT })
    match s.activePopup, s.selectedNode with
    | .Details, some selRow =>
        match s.nodes.find? (fun n => n.guid == selRow.guid) with
        | some node =>
            ({ s1 with status := node.node_description },
             [Req.counters (node.ports.map
                (fun p => { lid := node.lid, number := p.number }))])
        | none => (s1, [Req.counters aggTargets])
    | .Details, none => (s1, [Req.counters aggTargets])
    | _, _ => (s1, [Req.counters aggTargets])

/-- `App::on_tick` from `src/app.rs`. -/
def on_tick (s : CoordState) : CoordState × List Req :=
  let tick := (s.tick + 1) % 30
  let auc := if tick = 0 then s.autoUpdateCounter + 1 else s.autoUpdateCounter
  let s1 := { s with tick := tick, autoUpdateCounter := auc }
  if s1.autoUpdate && !s1.pending && decide (s1.autoUpdateInterval ≤ auc) then
    if s1.nodes.isEmpty then
      ({ s1 with autoUpdateCounter := 0 }, [])
    else
      let res := update_counters { s1 with status := "Updating counters..." }
      ({ res.1 with autoUpdateCounter := 0 }, res.2)
  else
    (s1, [])

/-- `App::handle_counters_update` from `src/app.rs`: shift
`previous ← current ← reply` and recompute `display` under the active
presentation mode. -/
def handle_counters_update (counters : CounterStore) (s : CoordState) :
    CoordState :=
  let previous := s.currentC
  let current := counters
  let base := { s with previousC := previous, currentC := current }
  match s.counterMode with
  | .Whole =>
      { base with
        displayC := current
        status := "Updated counters (" ++ toString current.length ++ ")"
        pending := false }
  | .Delta =>
      { base with
        displayC := current.map (fun kv => (kv.1,
          match storeGet previous kv.1 with
          | some old_map => calc_counters_delta old_map kv.2
          | none => kv.2))
        status := "Updated counters (" ++ toString current.length ++ ")"
        pending := false }
  | .Baseline =>
      { base with
        displayC := current.map (fun kv => (kv.1,
          match storeGet s.baselineC kv.1 with
          | some old_map => calc_counters_delta old_map kv.2
          | none => kv.2))
        status := "Updated counters (" ++ toString current.length ++ ")"
        pending := false }

/-- A decoded terminal key event.  `char c` is `KeyCode::Char(c)` without
modifiers, `ctrlChar c` with `CONTROL`; `esc` is a plain `Esc`. -/
inductive KeyEv where
  | char (c : Char)
  | ctrlChar (c : Char)
  | esc
  | enter
  | backspace
  | down
  | up
  | pageDown
  | pageUp
  | home
  | endKey
  | other
deriving DecidableEq, Repr

/-- `SearchForm::on_key_press` from `src/ui/forms.rs`. -/
def search_form_on_key_press (k : KeyEv) (s : CoordState) : CoordState :=
  match k with
  | .char c | .ctrlChar c => { s with filter := s.filter.push c }
  | .backspace => { s with filter := s.filter.dropRight 1 }
  | _ => s

/-- The non-quit character arms of the main key map (their patterns end in
`..`, so they apply with any modifiers). -/
def main_char_key (s : CoordState) (c : Char) : CoordState × List Req :=
  if c = 'd' then discover_fabric s
  else if c = 'u' then
    if s.nodes.isEmpty then
      ({ s with status := "No nodes discovered yet, cannot update counters." }, [])
    else update_counters s
  else if c = 'U' then ({ s with autoUpdate := !s.autoUpdate }, [])
  else if c = 'W' then ({ s with counterMode := CounterMode.Whole }, [])
  else if c = 'D' then ({ s with counterMode := CounterMode.Delta }, [])
  else if c = 'B' then
    ({ s with baselineC := s.currentC, counterMode := CounterMode.Baseline }, [])
  else if c = 's' then ({ s with sortColumn := (s.sortColumn + 1) % 9 }, [])
  else if c = 'S' then ({ s with sortAscending := !s.sortAscending }, [])
  else if c = '/' then ({ s with activePopup := Popup.Search }, [])
  else (s, [])

/-- `App::handle_key_event` from `src/app.rs`: popup-local handling first,
then the main key map. -/
def handle_key_event (m : String → String → Bool) (s : CoordState)
    (k : KeyEv) : CoordState × List Req :=
  match s.activePopup with
  | .Search =>
      match k with
      | .esc | .enter =>
          let s1 := { s with activePopup := Popup.None }
          if s1.nodes.isEmpty then (s1, [])
          else (set_selected_node_guid m { s1 with selected := 0 }, [])
      | _ => (search_form_on_key_press k s, [])
  | .Details =>
      match k with
      | .esc | .enter => ({ s with activePopup := Popup.None }, [])
      | .down =>
          if s.displayC.isEmpty then (s, [])
          else
            let max_idx := s.displayC.length - 1
            let popupSelected := min (s.popupSelected + 1) max_idx
            let vis := max s.visibleRows 1
            let max_offset := s.displayC.length - vis
            let s1 := { s with popupSelected := popupSelected }
            if s1.popupTableOffset + vis ≤ popupSelected then
              ({ s1 with popupTableOffset := min (s1.popupTableOffset + 1) max_offset }, [])
            else (s1, [])
      | .up =>
          if s.displayC.isEmpty then (s, [])
          else
            let popupSelected := s.popupSelected - 1
            let s1 := { s with popupSelected := popupSelected }
            if popupSelected < s1.popupTableOffset then
              ({ s1 with popupTableOffset := s1.popupTableOffset - 1 }, [])
            else (s1, [])
      | .char c | .ctrlChar c =>
          if c = 'u' then
            if s.nodes.isEmpty then
              ({ s with status := "No nodes discovered yet, cannot update counters." }, [])
            else update_counters s
          else (s, [])
      | _ => (s, [])
  | .None =>
      match k with
      | .esc => (s, [Req.quit])
      | .char c =>
          if c = 'q' then (s, [Req.quit]) else main_char_key s c
      | .ctrlChar c =>
          if c = 'c' then (s, [Req.quit]) else main_char_key s c
      | .down =>
          if s.nodes.isEmpty then (s, [])
          else
            let max_idx := filtered_len m s - 1
            let s1 := { s with selected := min (s.selected + 1) max_idx }
            (ensure_selected_visible m (set_selected_node_guid m s1), [])
      | .up =>
          if s.nodes.isEmpty then (s, [])
          else
            let s1 := { s with selected := s.selected - 1 }
            (ensure_selected_visible m (set_selected_node_guid m s1), [])
      | .pageDown =>
          if s.nodes.isEmpty then (s, [])
          else
            let vis := max s.visibleRows 1
            let len := filtered_len m s
            let s1 := { s with selected := min (s.selected + vis) (len - 1) }
            (ensure_selected_visible m (set_selected_node_guid m s1), [])
      | .pageUp =>
          if s.nodes.isEmpty then (s, [])
          else
            let s1 := { s with selected := s.selected - max s.visibleRows 1 }
            (ensure_selected_visible m (set_selected_node_guid m s1), [])
      | .home =>
          if s.nodes.isEmpty then (s, [])
          else
            let s1 := { s with selected := 0 }
            (ensure_selected_visible m (set_selected_node_guid m s1), [])
      | .endKey =>
          if s.nodes.isEmpty then (s, [])
          else
            let s1 := { s with selected := filtered_len m s - 1 }
            (ensure_selected_visible m (set_selected_node_guid m s1), [])
      | .enter =>
          let s1 := set_selected_node_guid m s
          if s1.selectedNode.isSome then
            ({ s1 with
                displayC := []
                currentC := []
                previousC := []
                popupTableOffset := 0
                popupSelected := 0
                activePopup := Popup.Details }, [])
          else ({ s1 with activePopup := Popup.None }, [])
      | _ => (s, [])

/-- One event drawn from the coordinator's fan-in (`Event` in
`src/event.rs`), as dispatched by `App::handle_events`. -/
inductive Ev where
  | tick
  | key (k : KeyEv)
  | quitApp
  | discResponse (nodes : List Node)
  | discError
  | discExit
  | discOther
  | ctrResponse (counters : CounterStore)
  | ctrError
  | ctrExit
  | ctrOther
deriving Repr

/-- `App::handle_events` from `src/app.rs`: the coordinator's transition
function.  Returns the successor state and the requests sent to the service
mailboxes during the transition. -/
def step (m : String → String → Bool) (s : CoordState) (e : Ev) :
    CoordState × List Req :=
  match e with
  | .tick => on_tick s
  | .key k => handle_key_event m s k
  | .quitApp => ({ s with running := false }, [])
  | .discResponse nodes =>
      let s1 := { s with
        status := "Discovery complete: " ++ toString nodes.length ++ " nodes found"
        nodes := nodes }
      if s1.nodes.isEmpty then (s1, [])
      else (set_selected_node_guid m { s1 with selected := 0 }, [])
  | .discError => ({ s with status := "Discovery failed" }, [])
  | .discExit => (s, [])
  | .discOther => ({ s with status := "Unknown discovery event" }, [])
  | .ctrResponse counters =>
      ({ handle_counters_update counters s with lastCounterUpdate := some () }, [])
  | .ctrError => ({ s with status := "Counter update failed", pending := false }, [])
  | .ctrExit => (s, [])
  | .ctrOther => ({ s with status := "Unknown counter event" }, [])

/-- A row of the Details popup table:
`(port, remote description, recv_bw, xmit_bw, bw_loss, error_count,
error_strings)` from `render_details_popup` in `src/ui/view.rs`. -/
structure DetailRow where
  port : Int
  nodeDesc : String
  recvBw : ℚ
  xmtBw : ℚ
  bwLoss : ℚ
  errCnt : Nat
  errStr : String
deriving DecidableEq, Repr

/-- The per-entry projection of `render_details_popup`: every `display`
entry becomes a row; the remote description is looked up on the *first node
whose LID equals the entry's LID* (and that node's port list). -/
def detail_row_of_entry (s : CoordState) (kv : (Nat × Int) × CounterRecord) :
    DetailRow :=
  let lid := kv.1.1
  let port := kv.1.2
  let ctrs := kv.2
  let node_desc :=
    (((s.nodes.find? (fun n => n.lid == lid)).bind
        (fun n => n.ports.find? (fun p => p.number == port))).map
      (fun p => p.remote_node_description)).getD ""
  { port := port
    nodeDesc := node_desc
    recvBw := get_bw ctrs "rcv_bytes" s.counterMode
    xmtBw := get_bw ctrs "xmt_bytes" s.counterMode
    bwLoss := get_bw_loss ctrs "xmit_waits" s.counterMode
    errCnt := count_errors ctrs
    errStr := get_error_strings ctrs }

/-- The `node_info` row list built (then rendered) by
`App::render_details_popup` in `src/ui/view.rs`: all `display` entries
projected and sorted by port number (`sort_by(|a, b| a.0.cmp(&b.0))`). -/
def render_details_popup_rows (s : CoordState) : List DetailRow :=
  sortByOrd (fun a b => cmpv a.port b.port)
    (s.displayC.map (detail_row_of_entry s))

/-- The raw node type reported by the native discovery library. -/
inductive RawNodeType where
  | CA
  | SWITCH
  | Other
deriving DecidableEq, Repr

/-- A raw port of the native topology: its number and the remote node
description, when the weak back-reference chain upgrades. -/
structure RawPort where
  number : Int
  remote_desc : Option String
deriving DecidableEq, Repr

/-- A raw node of the native topology (`rsmad::ibnetdisc` node). -/
structure RawNode where
  node_type : RawNodeType
  guid : Nat
  lid : Nat
  node_desc : String
  ports : Option (List RawPort)
deriving DecidableEq, Repr

/-- `RsmadDiscoveryService::get_nodes` from `src/services/rsmad.rs`:
`fabric.discover(...)` is abstracted by its result.  On a discovery error the
function returns the (still empty) node vector; otherwise it converts the raw
nodes, including CA nodes only when configured. -/
def rsmad_get_nodes (include_hcas : Bool)
    (discover_res : Except String (List RawNode)) : List Node :=
  match discover_res with
  | .error _ => []
  | .ok raw_nodes =>
      raw_nodes.foldl (fun nodes nd =>
        match nd.node_type with
        | .CA =>
            if include_hcas then
              nodes ++ [{ guid := nd.guid, node_description := nd.node_desc,
                          ports := [], lid := nd.lid }]
            else nodes
        | .SWITCH =>
            nodes ++ [{ guid := nd.guid, node_description := nd.node_desc,
                        ports := (nd.ports.getD []).map (fun p =>
                          { number := p.number,
                            remote_node_description := p.remote_desc.getD "" }),
                        lid := nd.lid }]
        | .Other => nodes) []

/-- `RsmadDiscoveryService::run` on a `DiscoveryEvent::Request`: the service
always publishes `DiscoveryEvent::Response(nodes)` — even when discovery
failed and `nodes` is empty — never `DiscoveryEvent::Error`. -/
def rsmad_service_reply (include_hcas : Bool)
    (discover_res : Except String (List RawNode)) : Ev :=
  Ev.discResponse (rsmad_get_nodes include_hcas discover_res)

/-- The state built by `App::new` in `src/app.rs` (before the constructor's
initial `discover_fabric` call), for a configured update interval. -/
def initialState (update_interval : Nat) : CoordState :=
  { running := true
    nodes := []
    selectedNode := none
    displayC := []
    currentC := []
    previousC := []
    baselineC := []
    pending := false
    lastCounterUpdate := none
    counterMode := CounterMode.Whole
    status := ""
    tick := 0
    autoUpdate := false
    autoUpdateInterval := update_interval
    autoUpdateCounter := 0
    sortColumn := 0
    sortAscending := false
    filter := ""
    tableOffset := 0
    popupTableOffset := 0
    popupSelected := 0
    visibleRows := 0
    selected := 0
    activePopup := Popup.None }

/-- The display/current store invariant: every display key is a current key,
and the display record under a key has the same counter-key set as the
current record under that key. -/
def coordInv (s : CoordState) : Prop :=
  (∀ key, key ∈ storeKeys s.displayC → key ∈ storeKeys s.currentC) ∧
  (∀ key rec, storeGet s.displayC key = some rec →
    ∃ rec2, storeGet s.currentC key = some rec2 ∧ crKeys rec = crKeys rec2)

/-! ## Claim-side (specification) definitions

These follow the spec's words, for comparison against the definitions
embedded from the source. -/

/-- Claim C7's bandwidth formula: `(r[k] * 4 * 8 / 1e9) / t` with
`t = r["end_timestamp"] / 1e9` in Delta mode (`end_timestamp` defaulting to 1
when absent) and `t = 1` otherwise; 0 when `k` is absent. -/
def bw_claim (r : CounterRecord) (k : String) (mode : CounterMode) : ℚ :=
  let t : ℚ :=
    match mode with
    | .Delta => ((crGetD r "end_timestamp" 1 : Nat) : ℚ) / 1000000000
    | _ => 1
  match crGet r k with
  | some v => ((v : ℚ) * 4 * 8 / 1000000000) / t
  | none => 0

/-- Claim C4's list of exactly nine error counters. -/
def NINE_ERROR_COUNTERS : List String :=
  ["symbol_errors", "link_recovers", "link_downed", "rcv_errors",
   "phys_rcv_errors", "switch_rel_errors", "excess_overrun_errors",
   "vl15dropped", "qp1_drops"]

/-- Claim C4's error count: the sum of the nine listed counters, each
treated as 0 when absent. -/
def count_errors_claim (r : CounterRecord) : Nat :=
  (NINE_ERROR_COUNTERS.map (fun k => crGetD r k 0)).sum

/-- Claim C5's row derivation for the Details popup: only entries with
`port ≠ 255`, with the remote description taken from the *currently selected
node's* port list, sorted by port ascending. -/
def details_rows_claim (s : CoordState) : List DetailRow :=
  let selNode : Option Node :=
    s.selectedNode.bind (fun t => s.nodes.find? (fun n => n.guid == t.guid))
  sortByOrd (fun a b => cmpv a.port b.port)
    ((s.displayC.filter (fun kv => kv.1.2 != 255)).map (fun kv =>
      let port := kv.1.2
      let ctrs := kv.2
      let node_desc :=
        ((selNode.bind (fun n => n.ports.find? (fun p => p.number == port))).map
          (fun p => p.remote_node_description)).getD ""
      { port := port
        nodeDesc := node_desc
        recvBw := get_bw ctrs "rcv_bytes" s.counterMode
        xmtBw := get_bw ctrs "xmt_bytes" s.counterMode
        bwLoss := get_bw_loss ctrs "xmit_waits" s.counterMode
        errCnt := count_errors ctrs
        errStr := get_error_strings ctrs }))

/-! ## Concrete states and rows used by counterexamples and witnesses -/

/-- The always-matching regex matcher (the empty pattern). -/
def matchAll : String → String → Bool := fun _ _ => true

/-- A state whose display store holds a port-255 aggregate entry and a
per-port entry whose LID belongs to a node that is not the selected one. -/
def c5_state : CoordState :=
  { initialState 2 with
    nodes := [{ guid := 1, node_description := "A",
                ports := [{ number := 3, remote_node_description := "fromOther" }],
                lid := 5 },
              { guid := 2, node_description := "B",
                ports := [{ number := 3, remote_node_description := "fromSelected" }],
                lid := 7 }]
    selectedNode := some { guid := 2, lid := 7, desc := "B", portCount := 1,
                           recvBw := 0, xmtBw := 0, bwLoss := 0, errCnt := 0,
                           errStr := "" }
    displayC := [((5, 3), []), ((5, 255), [])]
    activePopup := Popup.Details }

/-- A coordinator state holding one discovered node. -/
def c8_state : CoordState :=
  { initialState 2 with
    nodes := [{ guid := 1, node_description := "sw", ports := [], lid := 5 }]
    status := "idle" }

/-- Two table rows with equal `recv_bw` sort keys but different identities. -/
def c9_row1 : Row9 :=
  { guid := 1, lid := 1, desc := "a", portCount := 0, recvBw := 5, xmtBw := 0,
    bwLoss := 0, errCnt := 0, errStr := "" }

/-- See `c9_row1`. -/
def c9_row2 : Row9 :=
  { guid := 2, lid := 2, desc := "b", portCount := 0, recvBw := 5, xmtBw := 0,
    bwLoss := 0, errCnt := 0, errStr := "" }

/-- Two table rows with distinct `recv_bw` sort keys. -/
def c9_row3 : Row9 :=
  { guid := 3, lid := 3, desc := "c", portCount := 0, recvBw := 1, xmtBw := 0,
    bwLoss := 0, errCnt := 0, errStr := "" }

/-- See `c9_row3`. -/
def c9_row4 : Row9 :=
  { guid := 4, lid := 4, desc := "d", portCount := 0, recvBw := 2, xmtBw := 0,
    bwLoss := 0, errCnt := 0, errStr := "" }

/-- A pending-update state used to witness the backpressure properties. -/
def c2_state : CoordState :=
  { initialState 2 with
    nodes := [{ guid := 1, node_description := "sw", ports := [], lid := 5 }]
    pending := true }

/-- A quiescent state with one node, used to witness the Enter transition. -/
def c10_state : CoordState :=
  { initialState 2 with
    nodes := [{ guid := 1, node_description := "sw", ports := [], lid := 5 }]
    baselineC := [((5, 255), [("xmt_bytes", 3)])]
    counterMode := CounterMode.Baseline
    filter := "s" }

/-! ## Association-list lemmas -/

theorem alookup_map_pair {κ ν ν₂ : Type} [DecidableEq κ] (f : κ → ν → ν₂)
    (l : List (κ × ν)) (k : κ) :
    alookup k (l.map (fun kv => (kv.1, f kv.1 kv.2))) = (alookup k l).map (f k) := by
  induction l with
  | nil => rfl
  | cons kv rest ih =>
      by_cases h : kv.1 = k
      · subst h
        simp [alookup]
      · simp [alookup, h, ih]

theorem keys_map_pair {κ ν ν₂ : Type} (f : κ → ν → ν₂) (l : List (κ × ν)) :
    (l.map (fun kv => (kv.1, f kv.1 kv.2))).map Prod.fst = l.map Prod.fst := by
  induction l with
  | nil => rfl
  | cons kv rest ih => simp [ih]

theorem sum_filterMap_get (ks : List String) (r : CounterRecord) :
    (ks.filterMap (fun k => crGet r k)).sum = (ks.map (fun k => crGetD r k 0)).sum := by
  induction ks with
  | nil => rfl
  | cons k rest ih =>
      cases h : crGet r k with
      | none => simp [List.filterMap_cons, h, crGetD, ih]
      | some v => simp [List.filterMap_cons, h, crGetD, ih]

/-! ## Comparator lemmas -/

theorem ordering_swap_eq_lt {o : Ordering} : o.swap = .lt ↔ o = .gt := by
  cases o <;> simp [Ordering.swap]

theorem ordering_swap_eq_gt {o : Ordering} : o.swap = .gt ↔ o = .lt := by
  cases o <;> simp [Ordering.swap]

theorem ordering_swap_eq_eq {o : Ordering} : o.swap = .eq ↔ o = .eq := by
  cases o <;> simp [Ordering.swap]

theorem cmpv_eq_lt {β : Type} [LinearOrder β] {a b : β} :
    cmpv a b = .lt ↔ a < b := by
  unfold cmpv
  split_ifs with h1 h2 <;> simp_all

theorem cmpv_eq_gt {β : Type} [LinearOrder β] {a b : β} :
    cmpv a b = .gt ↔ b < a := by
  unfold cmpv
  split_ifs with h1 h2 <;> simp_all
  exact le_of_lt h1

theorem cmpv_eq_eq {β : Type} [LinearOrder β] {a b : β} :
    cmpv a b = .eq ↔ a = b := by
  unfold cmpv
  split_ifs with h1 h2 <;> simp_all
  · exact ne_of_lt h1
  · exact (ne_of_lt h2).symm
  · exact le_antisymm h2 h1

theorem cmpv_swap {β : Type} [LinearOrder β] (a b : β) :
    cmpv b a = (cmpv a b).swap := by
  rcases lt_trichotomy a b with h | h | h
  · have h1 : cmpv a b = .lt := cmpv_eq_lt.mpr h
    have h2 : cmpv b a = .gt := cmpv_eq_gt.mpr h
    rw [h1, h2]; rfl
  · subst h
    have h1 : cmpv a a = .eq := cmpv_eq_eq.mpr rfl
    rw [h1]; rfl
  · have h1 : cmpv a b = .gt := cmpv_eq_gt.mpr h
    have h2 : cmpv b a = .lt := cmpv_eq_lt.mpr h
    rw [h1, h2]; rfl

theorem cmpv_ne_gt {β : Type} [LinearOrder β] {a b : β} :
    cmpv a b ≠ .gt ↔ a ≤ b := by
  rw [← not_lt]
  exact not_congr cmpv_eq_gt

theorem cmpv_trans {β : Type} [LinearOrder β] {a b d : β}
    (h1 : cmpv a b ≠ .gt) (h2 : cmpv b d ≠ .gt) : cmpv a d ≠ .gt :=
  cmpv_ne_gt.mpr (le_trans (cmpv_ne_gt.mp h1) (cmpv_ne_gt.mp h2))

theorem cmp_rows_swap (col : Int) (a b : Row9) :
    cmp_rows col b a = (cmp_rows col a b).swap := by
  unfold cmp_rows
  split_ifs <;> first
    | rfl
    | exact cmpv_swap _ _

theorem cmp_rows_trans (col : Int) (a b d : Row9)
    (h1 : cmp_rows col a b ≠ .gt) (h2 : cmp_rows col b d ≠ .gt) :
    cmp_rows col a d ≠ .gt := by
  unfold cmp_rows at h1 h2 ⊢
  split_ifs at h1 h2 ⊢ <;> first
    | exact cmpv_trans h1 h2
    | simp

/-! ## Stable-sort lemmas -/

theorem sortByOrd_perm {α : Type} (c : α → α → Ordering) (l : List α) :
    List.Perm (sortByOrd c l) l :=
  List.perm_insertionSort _ l

theorem sortByOrd_sorted {α : Type} (c : α → α → Ordering)
    (hswap : ∀ a b, c b a = (c a b).swap)
    (htrans : ∀ a b d, c a b ≠ .gt → c b d ≠ .gt → c a d ≠ .gt) (l : List α) :
    List.Sorted (fun a b => c a b ≠ .gt) (sortByOrd c l) := by
  haveI : IsTotal α (fun a b => c a b ≠ .gt) := ⟨by
    intro a b
    cases h : c a b with
    | lt => exact Or.inl (by simp [h])
    | eq => exact Or.inl (by simp [h])
    | gt =>
        refine Or.inr ?_
        rw [hswap a b, h]
        simp [Ordering.swap]⟩
  haveI : IsTrans α (fun a b => c a b ≠ .gt) := ⟨htrans⟩
  exact List.sorted_insertionSort _ l

theorem sortByOrd_sorted_strict {α : Type} (c : α → α → Ordering)
    (hswap : ∀ a b, c b a = (c a b).swap)
    (htrans : ∀ a b d, c a b ≠ .gt → c b d ≠ .gt → c a d ≠ .gt) {l : List α}
    (hpw : l.Pairwise (fun a b => c a b ≠ .eq)) :
    List.Sorted (fun a b => c a b = .lt) (sortByOrd c l) := by
  have hs := sortByOrd_sorted c hswap htrans l
  have hsym : ∀ {x y : α}, c x y ≠ .eq → c y x ≠ .eq := by
    intro x y h hxy
    rw [hswap y x] at h
    exact h (ordering_swap_eq_eq.mpr hxy)
  have hpw2 : (sortByOrd c l).Pairwise (fun a b => c a b ≠ .eq) :=
    (List.Perm.pairwise_iff hsym (sortByOrd_perm c l)).mpr hpw
  exact (hs.and hpw2).imp (by
    intro a b h
    cases hc : c a b with
    | lt => rfl
    | eq => exact absurd hc h.2
    | gt => exact absurd hc h.1)

theorem sortByOrd_swap_eq_reverse {α : Type} (c : α → α → Ordering)
    (hswap : ∀ a b, c b a = (c a b).swap)
    (htrans : ∀ a b d, c a b ≠ .gt → c b d ≠ .gt → c a d ≠ .gt) {l : List α}
    (hpw : l.Pairwise (fun a b => c a b ≠ .eq)) :
    sortByOrd (fun a b => (c a b).swap) l = (sortByOrd c l).reverse := by
  have hswapS : ∀ a b, (c b a).swap = ((c a b).swap).swap := by
    intro a b
    rw [hswap a b]
  have heqv : ∀ x y, (c x y).swap ≠ .gt ↔ c y x ≠ .gt := by
    intro x y
    rw [hswap x y]
  have htransS : ∀ a b d, (c a b).swap ≠ .gt → (c b d).swap ≠ .gt →
      (c a d).swap ≠ .gt := by
    intro a b d h1 h2
    exact (heqv a d).mpr (htrans d b a ((heqv b d).mp h2) ((heqv a b).mp h1))
  have hpwS : l.Pairwise (fun a b => (c a b).swap ≠ .eq) := hpw.imp (by
    intro a b h hsw
    exact h (ordering_swap_eq_eq.mp hsw))
  have hdesc := sortByOrd_sorted_strict (fun a b => (c a b).swap) hswapS htransS hpwS
  have hrev : List.Pairwise (fun a b => c a b = .lt)
      ((sortByOrd (fun a b => (c a b).swap) l).reverse) := by
    rw [List.pairwise_reverse]
    exact hdesc.imp (by
      intro a b h
      rw [hswap a b]
      exact ordering_swap_eq_lt.mpr (ordering_swap_eq_lt.mp h))
  have hasc := sortByOrd_sorted_strict c hswap htrans hpw
  haveI : IsAntisymm α (fun a b => c a b = .lt) := ⟨by
    intro a b h1 h2
    exfalso
    rw [hswap a b, h1] at h2
    simp [Ordering.swap] at h2⟩
  have hperm : List.Perm (sortByOrd (fun a b => (c a b).swap) l).reverse
      (sortByOrd c l) :=
    ((List.reverse_perm (sortByOrd (fun a b => (c a b).swap) l)).trans
      (sortByOrd_perm _ l)).trans (sortByOrd_perm c l).symm
  have hmain := List.eq_of_perm_of_sorted hperm hrev hasc
  calc sortByOrd (fun a b => (c a b).swap) l
      = ((sortByOrd (fun a b => (c a b).swap) l).reverse).reverse :=
        (List.reverse_reverse _).symm
    _ = (sortByOrd c l).reverse := by rw [hmain]

/-! ## Coordinator projection lemmas -/

theorem ssng_proj (m : String → String → Bool) (s : CoordState) :
    (set_selected_node_guid m s).displayC = s.displayC ∧
    (set_selected_node_guid m s).currentC = s.currentC ∧
    (set_selected_node_guid m s).previousC = s.previousC ∧
    (set_selected_node_guid m s).baselineC = s.baselineC ∧
    (set_selected_node_guid m s).pending = s.pending ∧
    (set_selected_node_guid m s).nodes = s.nodes ∧
    (set_selected_node_guid m s).counterMode = s.counterMode ∧
    (set_selected_node_guid m s).filter = s.filter :=
  ⟨rfl, rfl, rfl, rfl, rfl, rfl, rfl, rfl⟩

theorem esv_proj (m : String → String → Bool) (s : CoordState) :
    (ensure_selected_visible m s).displayC = s.displayC ∧
    (ensure_selected_visible m s).currentC = s.currentC ∧
    (ensure_selected_visible m s).pending = s.pending := by
  simp only [ensure_selected_visible]
  split_ifs <;> exact ⟨rfl, rfl, rfl⟩

theorem update_counters_proj (s : CoordState) :
    (update_counters s).1.displayC = s.displayC ∧
    (update_counters s).1.currentC = s.currentC ∧
    (update_counters s).1.previousC = s.previousC ∧
    (update_counters s).1.baselineC = s.baselineC ∧
    (update_counters s).1.counterMode = s.counterMode ∧
    (update_counters s).1.nodes = s.nodes := by
  unfold update_counters
  repeat' split
  all_goals exact ⟨rfl, rfl, rfl, rfl, rfl, rfl⟩

theorem update_counters_of_pending (s : CoordState) (h : s.pending = true) :
    update_counters s = ({ s with status := "Counters update is already pending..." }, []) := by
  unfold update_counters
  rw [h]
  simp

theorem update_counters_cases (s : CoordState) :
    ((update_counters s).2 = [] ∧ (update_counters s).1.pending = s.pending) ∨
    ((update_counters s).1.pending = true ∧ s.pending = false) := by
  unfold update_counters
  by_cases hp : s.pending = true
  · left
    rw [if_pos hp]
    exact ⟨rfl, rfl⟩
  · rw [if_neg hp]
    by_cases hn : s.nodes.isEmpty
    · left
      rw [if_pos hn]
      exact ⟨rfl, rfl⟩
    · right
      rw [if_neg hn]
      refine ⟨?_, by simpa using hp⟩
      repeat' split
      all_goals rfl

theorem update_counters_reqs_of_pending (s : CoordState) (h : s.pending = true) :
    (update_counters s).2 = [] := by
  rcases update_counters_cases s with ⟨h1, _⟩ | ⟨_, h2⟩
  · exact h1
  · rw [h] at h2
    cases h2

theorem update_counters_pending_of_mem (s : CoordState) (t : List LidPort)
    (hmem : Req.counters t ∈ (update_counters s).2) :
    (update_counters s).1.pending = true := by
  rcases update_counters_cases s with ⟨h1, h2⟩ | ⟨h1, _⟩
  · rw [h1] at hmem
    cases hmem
  · exact h1

theorem update_counters_pending_unchanged (s : CoordState) (h : s.pending = true) :
    (update_counters s).1.pending = true := by
  rw [update_counters_of_pending s h]
  exact h

theorem on_tick_proj_of_pending (s : CoordState) (h : s.pending = true) :
    on_tick s = ({ s with
      tick := (s.tick + 1) % 30
      autoUpdateCounter := if (s.tick + 1) % 30 = 0 then s.autoUpdateCounter + 1
                           else s.autoUpdateCounter }, []) := by
  unfold on_tick
  simp [h]

theorem on_tick_stores (s : CoordState) :
    (on_tick s).1.displayC = s.displayC ∧ (on_tick s).1.currentC = s.currentC := by
  simp only [on_tick]
  split_ifs <;>
    simp [(update_counters_proj _).1, (update_counters_proj _).2.1]

theorem main_char_key_stores (s : CoordState) (c : Char) :
    (main_char_key s c).1.displayC = s.displayC ∧
    (main_char_key s c).1.currentC = s.currentC := by
  unfold main_char_key discover_fabric
  repeat' split
  all_goals first
    | exact ⟨rfl, rfl⟩
    | exact ⟨(update_counters_proj _).1, (update_counters_proj _).2.1⟩

theorem handle_key_event_stores (m : String → String → Bool) (s : CoordState)
    (k : KeyEv) :
    ((handle_key_event m s k).1.displayC = s.displayC ∧
     (handle_key_event m s k).1.currentC = s.currentC) ∨
    ((handle_key_event m s k).1.displayC = [] ∧
     (handle_key_event m s k).1.currentC = []) := by
  unfold handle_key_event
  cases hp : s.activePopup <;> cases k
  all_goals try dsimp only
  all_goals repeat' split
  all_goals first
    | exact Or.inl ⟨rfl, rfl⟩
    | exact Or.inr ⟨rfl, rfl⟩
    | exact Or.inl ⟨(main_char_key_stores _ _).1, (main_char_key_stores _ _).2⟩
    | exact Or.inl ⟨(update_counters_proj _).1, (update_counters_proj _).2.1⟩
    | exact Or.inl ⟨((esv_proj m _).1).trans ((ssng_proj m _).1),
                    ((esv_proj m _).2.1).trans ((ssng_proj m _).2.1)⟩

theorem handle_counters_update_pending_false (counters : CounterStore)
    (s : CoordState) : (handle_counters_update counters s).pending = false := by
  unfold handle_counters_update
  cases hm : s.counterMode <;> rfl

theorem main_char_key_pending (s : CoordState) (c : Char) (h : s.pending = true) :
    (main_char_key s c).1.pending = true := by
  unfold main_char_key discover_fabric
  repeat' split
  all_goals first
    | exact h
    | exact update_counters_pending_unchanged _ h

theorem handle_key_event_pending (m : String → String → Bool) (s : CoordState)
    (k : KeyEv) (h : s.pending = true) :
    (handle_key_event m s k).1.pending = true := by
  unfold handle_key_event
  cases hp : s.activePopup <;> cases k
  all_goals try dsimp only
  all_goals repeat' split
  all_goals first
    | exact h
    | exact update_counters_pending_unchanged _ h
    | exact main_char_key_pending s _ h
    | exact ((esv_proj m _).2.2).trans h

theorem main_char_key_reqs_of_pending (s : CoordState) (c : Char)
    (h : s.pending = true) :
    (main_char_key s c).2 = [] ∨ (main_char_key s c).2 = [Req.discover] := by
  unfold main_char_key discover_fabric
  repeat' split
  all_goals first
    | exact Or.inl rfl
    | exact Or.inr rfl
    | exact Or.inl (update_counters_reqs_of_pending s h)

theorem handle_key_event_reqs_of_pending (m : String → String → Bool)
    (s : CoordState) (k : KeyEv) (h : s.pending = true) :
    (handle_key_event m s k).2 = [] ∨ (handle_key_event m s k).2 = [Req.quit] ∨
    (handle_key_event m s k).2 = [Req.discover] := by
  unfold handle_key_event
  cases hp : s.activePopup <;> cases k
  all_goals try dsimp only
  all_goals repeat' split
  all_goals first
    | exact Or.inl rfl
    | exact Or.inr (Or.inl rfl)
    | exact Or.inl (update_counters_reqs_of_pending s h)
    | exact (main_char_key_reqs_of_pending s _ h).elim Or.inl
        (fun hh => Or.inr (Or.inr hh))

theorem main_char_key_mem_pending (s : CoordState) (c : Char) (t : List LidPort) :
    Req.counters t ∈ (main_char_key s c).2 → (main_char_key s c).1.pending = true := by
  unfold main_char_key discover_fabric
  repeat' split
  all_goals intro hmem
  all_goals first
    | exact update_counters_pending_of_mem _ _ hmem
    | simp at hmem

theorem handle_key_event_mem_pending (m : String → String → Bool)
    (s : CoordState) (k : KeyEv) (t : List LidPort) :
    Req.counters t ∈ (handle_key_event m s k).2 →
    (handle_key_event m s k).1.pending = true := by
  unfold handle_key_event
  cases hp : s.activePopup <;> cases k
  all_goals try dsimp only
  all_goals repeat' split
  all_goals intro hmem
  all_goals first
    | exact update_counters_pending_of_mem _ _ hmem
    | exact main_char_key_mem_pending s _ t hmem
    | simp at hmem

theorem on_tick_mem_pending (s : CoordState) (t : List LidPort) :
    Req.counters t ∈ (on_tick s).2 → (on_tick s).1.pending = true := by
  unfold on_tick
  dsimp only
  repeat' split
  all_goals intro hmem
  all_goals first
    | exact update_counters_pending_of_mem _ _ hmem
    | simp at hmem

theorem coordInv_of_stores (s' s : CoordState) (hd : s'.displayC = s.displayC)
    (hc : s'.currentC = s.currentC) (h : coordInv s) : coordInv s' := by
  unfold coordInv at h ⊢
  rw [hd, hc]
  exact h

theorem coordInv_empty (s : CoordState) (hd : s.displayC = []) : coordInv s := by
  constructor
  · intro key hk
    rw [hd] at hk
    cases hk
  · intro key rec hk
    rw [hd] at hk
    cases hk

theorem crKeys_calc (o v : CounterRecord) :
    crKeys (calc_counters_delta o v) = crKeys v :=
  keys_map_pair (fun k n => if crGetD o k 0 ≤ n then n - crGetD o k 0 else n) v

theorem coordInv_handle (s : CoordState) (counters : CounterStore) :
    coordInv (handle_counters_update counters s) := by
  unfold handle_counters_update coordInv
  cases hm : s.counterMode
  all_goals dsimp only
  case Whole =>
    exact ⟨fun key hk => hk, fun key rec hk => ⟨rec, hk, rfl⟩⟩
  case Delta =>
    refine ⟨?_, ?_⟩
    · intro key hk
      have hkeys := keys_map_pair
        (fun k v => match storeGet s.currentC k with
          | some o => calc_counters_delta o v
          | none => v) counters
      unfold storeKeys at hk ⊢
      simp only [hkeys] at hk
      exact hk
    · intro key rec hk
      have hl := alookup_map_pair
        (fun k v => match storeGet s.currentC k with
          | some o => calc_counters_delta o v
          | none => v) counters key
      have hk2 := hl.symm.trans hk
      cases hcur : alookup key counters with
      | none =>
          rw [hcur] at hk2
          cases hk2
      | some rec2 =>
          rw [hcur] at hk2
          refine ⟨rec2, hcur, ?_⟩
          have hrec : rec = match storeGet s.currentC key with
            | some o => calc_counters_delta o rec2
            | none => rec2 := by
            injection hk2 with hk3
            exact hk3.symm
          rw [hrec]
          cases hprev : storeGet s.currentC key
          · rfl
          · exact crKeys_calc _ _
  case Baseline =>
    refine ⟨?_, ?_⟩
    · intro key hk
      have hkeys := keys_map_pair
        (fun k v => match storeGet s.baselineC k with
          | some o => calc_counters_delta o v
          | none => v) counters
      unfold storeKeys at hk ⊢
      simp only [hkeys] at hk
      exact hk
    · intro key rec hk
      have hl := alookup_map_pair
        (fun k v => match storeGet s.baselineC k with
          | some o => calc_counters_delta o v
          | none => v) counters key
      have hk2 := hl.symm.trans hk
      cases hcur : alookup key counters with
      | none =>
          rw [hcur] at hk2
          cases hk2
      | some rec2 =>
          rw [hcur] at hk2
          refine ⟨rec2, hcur, ?_⟩
          have hrec : rec = match storeGet s.baselineC key with
            | some o => calc_counters_delta o rec2
            | none => rec2 := by
            injection hk2 with hk3
            exact hk3.symm
          rw [hrec]
          cases hprev : storeGet s.baselineC key
          · rfl
          · exact crKeys_calc _ _

/-! ## Claim theorems -/

/-- C4 (counterexample): the row error count is *not* the sum of the nine
counters listed in the claim — a record holding only
`rcv_local_phy_errors = 5` (one of the two extra counters in the code's
`ERROR_COUNTERS`) gets `count_errors = 5` while the nine-counter sum is 0. -/
theorem count_errors_nine_counterexample :
    count_errors [("rcv_local_phy_errors", 5)] ≠
      count_errors_claim [("rcv_local_phy_errors", 5)] := by
  decide

/-- C4 (amended): the error count of a record is the sum of the values of
exactly the **eleven** counters of `ERROR_COUNTERS` — the claim's nine plus
`rcv_local_phy_errors` and `rcv_malformed_pkt_errors` — each treated as 0
when its key is absent from the record. -/
theorem count_errors_eq_sum_eleven (r : CounterRecord) :
    count_errors r = (ERROR_COUNTERS.map (fun k => crGetD r k 0)).sum :=
  sum_filterMap_get ERROR_COUNTERS r

/-- C6: in Whole counter mode, processing a `CounterReply` makes the display
store equal to the received current store, and re-processing the same store
again still yields `display = current = counters`. -/
theorem whole_mode_idempotent (s : CoordState) (counters : CounterStore)
    (hm : s.counterMode = CounterMode.Whole) :
    ((handle_counters_update counters s).displayC =
       (handle_counters_update counters s).currentC) ∧
    ((handle_counters_update counters s).currentC = counters) ∧
    ((handle_counters_update counters
        (handle_counters_update counters s)).displayC =
       (handle_counters_update counters
         (handle_counters_update counters s)).currentC) ∧
    ((handle_counters_update counters
        (handle_counters_update counters s)).currentC = counters) := by
  simp [handle_counters_update, hm]

/-- Witness for C6 at a concrete state and store. -/
theorem whole_mode_idempotent_witness :
    ((handle_counters_update [((5, 255), [("xmt_bytes", 9)])] (initialState 2)).displayC =
       (handle_counters_update [((5, 255), [("xmt_bytes", 9)])] (initialState 2)).currentC) ∧
    ((handle_counters_update [((5, 255), [("xmt_bytes", 9)])] (initialState 2)).currentC =
       [((5, 255), [("xmt_bytes", 9)])]) ∧
    ((handle_counters_update [((5, 255), [("xmt_bytes", 9)])]
        (handle_counters_update [((5, 255), [("xmt_bytes", 9)])] (initialState 2))).displayC =
       (handle_counters_update [((5, 255), [("xmt_bytes", 9)])]
         (handle_counters_update [((5, 255), [("xmt_bytes", 9)])] (initialState 2))).currentC) ∧
    ((handle_counters_update [((5, 255), [("xmt_bytes", 9)])]
        (handle_counters_update [((5, 255), [("xmt_bytes", 9)])] (initialState 2))).currentC =
       [((5, 255), [("xmt_bytes", 9)])]) :=
  whole_mode_idempotent (initialState 2) [((5, 255), [("xmt_bytes", 9)])] rfl

/-- C7: the derived bandwidth equals the claim's formula
`(r[k] * 4 * 8 / 1e9) / t` with `t = r["end_timestamp"] / 1e9` in Delta mode
(`end_timestamp` defaulting to 1 when absent), `t = 1` in Whole and Baseline
modes, and result 0 when `k` is absent (exact arithmetic model of `f64`). -/
theorem get_bw_eq_bw_claim (r : CounterRecord) (k : String) (mode : CounterMode) :
    get_bw r k mode = bw_claim r k mode := by
  unfold get_bw bw_claim
  cases mode <;> cases hg : crGet r k <;> simp [hg] <;> ring

/-- C1: the delta map computed when a `CounterReply` is processed in Delta
mode (and, in Baseline mode, against the baseline store) contains exactly
the keys of the new map; for each key `k` present with value `v`, the delta
is `v - old` when `old ≤ v` (`old = old_map[k]` or 0 when absent) and `v`
otherwise; keys present only in the old map do not appear. -/
theorem counter_delta_spec (old_map new_map : CounterRecord) :
    (crKeys (calc_counters_delta old_map new_map) = crKeys new_map) ∧
    (∀ k v, crGet new_map k = some v →
      crGet (calc_counters_delta old_map new_map) k =
        some (if crGetD old_map k 0 ≤ v then v - crGetD old_map k 0 else v)) ∧
    (∀ k, crGet new_map k = none →
      crGet (calc_counters_delta old_map new_map) k = none) ∧
    (∀ (s : CoordState) (counters : CounterStore) key old_rec new_rec,
      s.counterMode = CounterMode.Delta →
      storeGet s.currentC key = some old_rec →
      alookup key counters = some new_rec →
      storeGet (handle_counters_update counters s).displayC key =
        some (calc_counters_delta old_rec new_rec)) ∧
    (∀ (s : CoordState) (counters : CounterStore) key old_rec new_rec,
      s.counterMode = CounterMode.Baseline →
      storeGet s.baselineC key = some old_rec →
      alookup key counters = some new_rec →
      storeGet (handle_counters_update counters s).displayC key =
        some (calc_counters_delta old_rec new_rec)) := by
  refine ⟨?_, ?_, ?_, ?_, ?_⟩
  · exact keys_map_pair
      (fun k v => if crGetD old_map k 0 ≤ v then v - crGetD old_map k 0 else v)
      new_map
  · intro k v hv
    refine Eq.trans (alookup_map_pair
      (fun k v => if crGetD old_map k 0 ≤ v then v - crGetD old_map k 0 else v)
      new_map k) ?_
    rw [show alookup k new_map = some v from hv]
    rfl
  · intro k hk
    refine Eq.trans (alookup_map_pair
      (fun k v => if crGetD old_map k 0 ≤ v then v - crGetD old_map k 0 else v)
      new_map k) ?_
    rw [show alookup k new_map = none from hk]
    rfl
  · intro s counters key old_rec new_rec hm hold hnew
    show alookup key (handle_counters_update counters s).displayC = _
    unfold handle_counters_update
    rw [hm]
    refine Eq.trans (alookup_map_pair
      (fun k v => match storeGet s.currentC k with
        | some o => calc_counters_delta o v
        | none => v) counters key) ?_
    rw [hnew]
    simp [hold]
  · intro s counters key old_rec new_rec hm hold hnew
    show alookup key (handle_counters_update counters s).displayC = _
    unfold handle_counters_update
    rw [hm]
    refine Eq.trans (alookup_map_pair
      (fun k v => match storeGet s.baselineC k with
        | some o => calc_counters_delta o v
        | none => v) counters key) ?_
    rw [hnew]
    simp [hold]

/-- Witness for C1: a concrete old/new pair exercising both the subtraction
and the wrap-reset branch. -/
theorem counter_delta_spec_witness :
    crGet (calc_counters_delta [("a", 5), ("gone", 1)] [("a", 3), ("b", 7)]) "b" =
      some (if crGetD [("a", 5), ("gone", 1)] "b" 0 ≤ 7 then
              7 - crGetD [("a", 5), ("gone", 1)] "b" 0 else 7) :=
  (counter_delta_spec [("a", 5), ("gone", 1)] [("a", 3), ("b", 7)]).2.1 "b" 7 rfl

/-- C5 (counterexample): the Details rows are *not* obtained by iterating
only the `port ≠ 255` entries with the remote description taken from the
selected node's port list: at `c5_state` the code keeps the `(5, 255)` entry
and resolves the description through the first node with LID 5 rather than
the selected node. -/
theorem details_rows_counterexample :
    render_details_popup_rows c5_state ≠ details_rows_claim c5_state := by
  decide

/-- C5 (amended): the Details rows are obtained by iterating **all** entries
`(lid, port) → record` of the display store (port 255 included), taking each
row's `remote_node_description` from the port list of the first node in the
node list whose LID equals the entry's LID (empty when absent), and the rows
are sorted by port number ascending. -/
theorem details_rows_amended (s : CoordState) :
    List.Perm (render_details_popup_rows s) (s.displayC.map (detail_row_of_entry s)) ∧
    List.Pairwise (fun a b : DetailRow => a.port ≤ b.port)
      (render_details_popup_rows s) := by
  constructor
  · exact sortByOrd_perm _ _
  · have hs := sortByOrd_sorted (fun a b : DetailRow => cmpv a.port b.port)
      (fun a b => cmpv_swap a.port b.port)
      (fun a b d h1 h2 => cmpv_trans h1 h2)
      (s.displayC.map (detail_row_of_entry s))
    exact hs.imp (by
      intro a b h
      exact cmpv_ne_gt.mp h)

/-- C8 (counterexample): when discovery fails, the coordinator's node list
*is* modified (replaced by the empty list carried by the service's
`Response`), and the status is "Discovery complete: 0 nodes found", not
"Discovery failed". -/
theorem discovery_failure_counterexample :
    ((step matchAll c8_state
        (rsmad_service_reply false (Except.error "discover failed"))).1.nodes ≠
      c8_state.nodes) ∧
    ((step matchAll c8_state
        (rsmad_service_reply false (Except.error "discover failed"))).1.status ≠
      "Discovery failed") := by
  constructor
  · decide
  · decide

/-- C8 (amended): when a discovery attempt fails, the service publishes a
normal `Response` carrying an empty node list; the coordinator replaces its
node list with that empty list and sets the status to
"Discovery complete: 0 nodes found".  The coordinator's handler for
`DiscoveryEvent::Error` — which no provided service ever emits — leaves the
node list unmodified and sets the status to "Discovery failed". -/
theorem discovery_failure_amended (m : String → String → Bool) (s : CoordState)
    (inc : Bool) (err : String) :
    ((step m s (rsmad_service_reply inc (Except.error err))).1.nodes = [] ∧
     (step m s (rsmad_service_reply inc (Except.error err))).1.status =
       "Discovery complete: 0 nodes found") ∧
    ((step m s Ev.discError).1.nodes = s.nodes ∧
     (step m s Ev.discError).1.status = "Discovery failed") := by
  refine ⟨⟨?_, ?_⟩, ?_, ?_⟩ <;>
    simp [step, rsmad_service_reply, rsmad_get_nodes]
  rfl

/-- C9 (counterexample): with a tie in the sort key (two rows with equal
`recv_bw`), the stable descending sort is *not* the reverse of the stable
ascending sort — tied rows keep their original relative order in both. -/
theorem sort_reverse_counterexample :
    sort_rows 4 false [c9_row1, c9_row2] ≠
      (sort_rows 4 true [c9_row1, c9_row2]).reverse := by
  decide

/-- C9 (amended): sorting on any column is total (the comparator always
yields an ordering, `partial_cmp` degraded to `Equal` on NaN) and stable (it
is the stable sort by the column comparator), and for a fixed sort column
the descending row order is the reverse of the ascending row order *when the
rows' sort keys are pairwise distinct*; with ties the two orders agree on
tied rows and are not reverses. -/
theorem sort_rows_desc_reverse (col : Int) (l : List Row9)
    (hpw : l.Pairwise (fun a b => cmp_rows col a b ≠ .eq)) :
    sort_rows col false l = (sort_rows col true l).reverse := by
  have h := sortByOrd_swap_eq_reverse (cmp_rows col) (cmp_rows_swap col)
    (cmp_rows_trans col) hpw
  show sortByOrd (rowCmp col false) l = (sortByOrd (rowCmp col true) l).reverse
  have e1 : rowCmp col false = fun a b => (cmp_rows col a b).swap := rfl
  have e2 : rowCmp col true = cmp_rows col := rfl
  rw [e1, e2]
  exact h

/-- Witness for C9 (amended) at two rows with distinct `recv_bw` keys. -/
theorem sort_rows_desc_reverse_witness :
    sort_rows 4 false [c9_row3, c9_row4] =
      (sort_rows 4 true [c9_row3, c9_row4]).reverse :=
  sort_rows_desc_reverse 4 [c9_row3, c9_row4] (by decide)

/-- C3: the invariant "every display key is a current key, and the display
record under a key has the same counter-key set as the current record" holds
in the initial state and is preserved by the processing of every event. -/
theorem display_within_current :
    (∀ u, coordInv (initialState u)) ∧
    (∀ (m : String → String → Bool) (s : CoordState) (e : Ev),
      coordInv s → coordInv (step m s e).1) := by
  constructor
  · intro u
    exact coordInv_empty _ rfl
  · intro m s e h
    cases e with
    | tick =>
        exact coordInv_of_stores _ _ (on_tick_stores s).1 (on_tick_stores s).2 h
    | key k =>
        rcases handle_key_event_stores m s k with ⟨h1, h2⟩ | ⟨h1, h2⟩
        · exact coordInv_of_stores _ _ h1 h2 h
        · exact coordInv_empty _ h1
    | quitApp => exact coordInv_of_stores _ _ rfl rfl h
    | discResponse ns =>
        unfold step
        dsimp only
        split
        · exact coordInv_of_stores _ _ rfl rfl h
        · exact coordInv_of_stores _ _ rfl rfl h
    | discError => exact coordInv_of_stores _ _ rfl rfl h
    | discExit => exact h
    | discOther => exact coordInv_of_stores _ _ rfl rfl h
    | ctrResponse counters =>
        exact coordInv_of_stores _ _ rfl rfl (coordInv_handle s counters)
    | ctrError => exact coordInv_of_stores _ _ rfl rfl h
    | ctrExit => exact h
    | ctrOther => exact coordInv_of_stores _ _ rfl rfl h

/-- Witness for C3: the invariant after processing a counter reply from the
initial state. -/
theorem display_within_current_witness :
    coordInv (step matchAll (initialState 2)
      (Ev.ctrResponse [((5, 255), [("xmt_bytes", 9)])])).1 :=
  display_within_current.2 matchAll (initialState 2)
    (Ev.ctrResponse [((5, 255), [("xmt_bytes", 9)])])
    (display_within_current.1 2)

/-- C2: while `pending_counter_update` holds no counter request is issued by
any event ('u' answers with the pending status message); every issued counter
request leaves the flag set; and, from a pending state, the flag is cleared
exactly by a counter reply (`Response` or `Error`). -/
theorem pending_guard :
    (∀ (m : String → String → Bool) (s : CoordState) (e : Ev),
      s.pending = true → ∀ t, Req.counters t ∉ (step m s e).2) ∧
    (∀ (m : String → String → Bool) (s : CoordState),
      s.pending = true → s.activePopup = Popup.None → s.nodes.isEmpty = false →
      (step m s (Ev.key (KeyEv.char 'u'))).1.status =
        "Counters update is already pending...") ∧
    (∀ (m : String → String → Bool) (s : CoordState) (e : Ev) (t : List LidPort),
      Req.counters t ∈ (step m s e).2 → (step m s e).1.pending = true) ∧
    (∀ (m : String → String → Bool) (s : CoordState) (e : Ev),
      s.pending = true →
      (((step m s e).1.pending = false) ↔
        ((∃ cs, e = Ev.ctrResponse cs) ∨ e = Ev.ctrError))) := by
  refine ⟨?_, ?_, ?_, ?_⟩
  · intro m s e h t
    cases e with
    | tick =>
        show Req.counters t ∉ (on_tick s).2
        rw [on_tick_proj_of_pending s h]
        simp
    | key k =>
        have hreq := handle_key_event_reqs_of_pending m s k h
        show Req.counters t ∉ (handle_key_event m s k).2
        rcases hreq with h1 | h1 | h1 <;> rw [h1] <;> simp
    | quitApp => simp [step]
    | discResponse ns =>
        unfold step
        dsimp only
        split <;> simp
    | discError => simp [step]
    | discExit => simp [step]
    | discOther => simp [step]
    | ctrResponse counters => simp [step]
    | ctrError => simp [step]
    | ctrExit => simp [step]
    | ctrOther => simp [step]
  · intro m s h hpop hnodes
    show (handle_key_event m s (KeyEv.char 'u')).1.status = _
    unfold handle_key_event
    rw [hpop]
    dsimp only
    rw [if_neg (by decide)]
    unfold main_char_key
    rw [if_neg (by decide), if_pos rfl, if_neg (by simp [hnodes]),
      update_counters_of_pending s h]
  · intro m s e t hmem
    cases e with
    | tick =>
        exact on_tick_mem_pending s t hmem
    | key k =>
        exact handle_key_event_mem_pending m s k t hmem
    | quitApp => cases hmem
    | discResponse ns =>
        unfold step at hmem
        dsimp only at hmem
        exact absurd hmem (by split <;> simp)
    | discError => cases hmem
    | discExit => cases hmem
    | discOther => cases hmem
    | ctrResponse counters => cases hmem
    | ctrError => cases hmem
    | ctrExit => cases hmem
    | ctrOther => cases hmem
  · intro m s e h
    cases e with
    | tick =>
        show ((on_tick s).1.pending = false) ↔ _
        rw [on_tick_proj_of_pending s h]
        simp [h]
    | key k =>
        have hp := handle_key_event_pending m s k h
        rw [show (step m s (Ev.key k)).1 = (handle_key_event m s k).1 from rfl, hp]
        simp
    | quitApp => simp [step, h]
    | discResponse ns =>
        constructor
        · intro hfalse
          exfalso
          have : (step m s (Ev.discResponse ns)).1.pending = true := by
            unfold step
            dsimp only
            split
            · exact h
            · exact h
          rw [this] at hfalse
          cases hfalse
        · rintro (⟨cs, hcs⟩ | hcs) <;> cases hcs
    | discError => simp [step, h]
    | discExit => simp [step, h]
    | discOther => simp [step, h]
    | ctrResponse counters =>
        simp only [step]
        constructor
        · intro
          exact Or.inl ⟨counters, rfl⟩
        · intro
          exact handle_counters_update_pending_false counters s
    | ctrError => simp [step]
    | ctrExit => simp [step, h]
    | ctrOther => simp [step, h]

/-- Witness for C2: a pending 'u' key press at a concrete state issues no
counter request. -/
theorem pending_guard_witness :
    Req.counters [] ∉ (step matchAll c2_state (Ev.key (KeyEv.char 'u'))).2 :=
  pending_guard.1 matchAll c2_state (Ev.key (KeyEv.char 'u')) rfl []

/-- C10: with no popup active and a row selected, the Enter key clears the
display, current and previous stores, resets the popup cursors and opens the
Details popup, while the baseline store, the counter mode, the node list and
the filter string are left unchanged. -/
theorem enter_opens_details_frame (m : String → String → Bool) (s : CoordState)
    (h1 : s.activePopup = Popup.None)
    (h2 : (set_selected_node_guid m s).selectedNode.isSome = true) :
    (step m s (Ev.key KeyEv.enter)).1.displayC = [] ∧
    (step m s (Ev.key KeyEv.enter)).1.currentC = [] ∧
    (step m s (Ev.key KeyEv.enter)).1.previousC = [] ∧
    (step m s (Ev.key KeyEv.enter)).1.popupTableOffset = 0 ∧
    (step m s (Ev.key KeyEv.enter)).1.popupSelected = 0 ∧
    (step m s (Ev.key KeyEv.enter)).1.activePopup = Popup.Details ∧
    (step m s (Ev.key KeyEv.enter)).1.baselineC = s.baselineC ∧
    (step m s (Ev.key KeyEv.enter)).1.counterMode = s.counterMode ∧
    (step m s (Ev.key KeyEv.enter)).1.nodes = s.nodes ∧
    (step m s (Ev.key KeyEv.enter)).1.filter = s.filter := by
  simp only [step]
  unfold handle_key_event
  rw [h1]
  dsimp only
  rw [if_pos h2]
  exact ⟨rfl, rfl, rfl, rfl, rfl, rfl, rfl, rfl, rfl, rfl⟩

/-- Witness for C10 at a concrete one-node state in Baseline mode. -/
theorem enter_opens_details_frame_witness :
    (step matchAll c10_state (Ev.key KeyEv.enter)).1.displayC = [] ∧
    (step matchAll c10_state (Ev.key KeyEv.enter)).1.currentC = [] ∧
    (step matchAll c10_state (Ev.key KeyEv.enter)).1.previousC = [] ∧
    (step matchAll c10_state (Ev.key KeyEv.enter)).1.popupTableOffset = 0 ∧
    (step matchAll c10_state (Ev.key KeyEv.enter)).1.popupSelected = 0 ∧
    (step matchAll c10_state (Ev.key KeyEv.enter)).1.activePopup = Popup.Details ∧
    (step matchAll c10_state (Ev.key KeyEv.enter)).1.baselineC = c10_state.baselineC ∧
    (step matchAll c10_state (Ev.key KeyEv.enter)).1.counterMode = c10_state.counterMode ∧
    (step matchAll c10_state (Ev.key KeyEv.enter)).1.nodes = c10_state.nodes ∧
    (step matchAll c10_state (Ev.key KeyEv.enter)).1.filter = c10_state.filter :=
  enter_opens_details_frame matchAll c10_state rfl (by decide)

end Ibtop
